import Mathlib

/-!
Verification development for the derby query-execution pipeline and
database adapter layer.  The definitions below are shallow embeddings of
the JavaScript sources:

* `src/adapters/base.js` — base adapter, migration runner;
* `src/adapters/sqlite.js` — embedded (SQLite) adapter;
* `src/adapters/postgres.js` — networked (PostgreSQL) adapter;
* `src/core/db.js` — query execution pipeline (`executeNamedQuery`);
* `db/adapter.js` — the earlier adapter variant kept in the repository.

Filesystem reads, the database engines and the Bun drivers are external
to the repository; they are represented by explicit oracles (function
parameters) or, where a claim depends on their documented behaviour, by
definitions marked `Modelled from the spec:`.
-/

namespace Derby

/-- Scalar values passed between the pipeline and the database driver. -/
inductive Value where
  | vInt : Int → Value
  | vStr : String → Value
  | vNull : Value
deriving DecidableEq

/-- A JavaScript object of bound parameters: association list in insertion order. -/
abbrev Params := List (String × Value)

/-- One result row: column name to value. -/
abbrev Row := List (String × Value)

/-- JS object / `Map` assignment: overwrite an existing key in place, else append. -/
def objSet {α : Type} (m : List (String × α)) (k : String) (v : α) :
    List (String × α) :=
  if m.any (fun p => p.1 == k) then
    m.map (fun p => if p.1 == k then (k, v) else p)
  else m ++ [(k, v)]

/-- JS object / `Map` lookup. -/
def objGet {α : Type} (m : List (String × α)) (k : String) : Option α :=
  (m.find? (fun p => p.1 == k)).map (fun p => p.2)

/-- JS `String.prototype.startsWith`. -/
def jsStartsWith (s pre : String) : Bool :=
  pre.data.isPrefixOf s.data

/-- JS `String.prototype.endsWith`. -/
def jsEndsWith (s suf : String) : Bool :=
  suf.data.isSuffixOf s.data

/-- JS `String.prototype.includes` for a single character. -/
def jsIncludesChar (s : String) (c : Char) : Bool :=
  s.data.contains c

/-- Does `pat` occur as a contiguous run inside the character list? -/
def listContainsSeq (pat : List Char) : List Char → Bool
  | [] => pat.isEmpty
  | c :: cs => pat.isPrefixOf (c :: cs) || listContainsSeq pat cs

/-- JS `String.prototype.includes`. -/
def jsIncludes (s pat : String) : Bool :=
  listContainsSeq pat.data s.data

/-- JS `String.prototype.trim`. -/
def jsTrim (s : String) : String :=
  String.mk (((s.data.dropWhile Char.isWhitespace).reverse.dropWhile
    Char.isWhitespace).reverse)

/-- Worker for `jsSplitChar`. -/
def splitOnCharAux (sep : Char) : List Char → List Char → List (List Char)
  | [], acc => [acc.reverse]
  | c :: cs, acc =>
    if c == sep then acc.reverse :: splitOnCharAux sep cs []
    else splitOnCharAux sep cs (c :: acc)

/-- JS `String.prototype.split` with a one-character separator. -/
def jsSplitChar (s : String) (sep : Char) : List String :=
  (splitOnCharAux sep s.data []).map (fun cs => String.mk cs)

/-- Remove the first occurrence of `pat`, as JS `replace(pat, "")` does. -/
def removeFirstOcc (pat : List Char) : List Char → List Char
  | [] => []
  | c :: cs =>
    if pat.isPrefixOf (c :: cs) then List.drop (pat.length - 1) cs
    else c :: removeFirstOcc pat cs

/-- JS `s.replace(pat, "")` on plain strings: first occurrence only. -/
def jsReplaceFirst (s pat : String) : String :=
  String.mk (removeFirstOcc pat.data s.data)

/-- `queryName = file.replace(/\.sql$/, "")` from `core/db.js` (anchored suffix). -/
def stripSqlSuffix (f : String) : String :=
  if jsEndsWith f ".sql" then String.mk (f.data.take (f.data.length - 4)) else f

/-- JS regex `\w`: ASCII letters, digits and underscore. -/
def isWordChar (c : Char) : Bool :=
  c.isAlpha || c.isDigit || c == '_'

/-- Worker for `pgRewriteMarkers`, structurally recursive on a fuel that
starts at the length of the text (each step consumes at least one
character, so the fuel never runs out on the input it is called with). -/
def pgRewriteMarkersFuel : Nat → List Char → List Char
  | 0, l => l
  | _ + 1, [] => []
  | fuel + 1, c :: cs =>
    if c == '$' && !(cs.takeWhile isWordChar).isEmpty then
      ':' :: cs.takeWhile isWordChar ++
        pgRewriteMarkersFuel fuel (cs.dropWhile isWordChar)
    else c :: pgRewriteMarkersFuel fuel cs

/-- The regex pass `sql.replace(/\$(\w+)/g, ':$1')` from `postgresTransformer`:
left-to-right, a `$` followed by at least one word character becomes `:`
followed by the same run of word characters. -/
def pgRewriteMarkers (l : List Char) : List Char :=
  pgRewriteMarkersFuel l.length l

/-- Is there a `$`-marker (a `$` followed by a word character) in the text? -/
def hasDollarMarker : List Char → Bool
  | [] => false
  | c :: cs => (c == '$' && !(cs.takeWhile isWordChar).isEmpty) || hasDollarMarker cs

/-- `defaultSqlTransformer` from `src/adapters/base.js`. -/
def defaultSqlTransformer (sql : String) (params : Params) : String × Params :=
  (sql, params)

/-- Key normalisation inside `sqliteTransformer`: add a `:` prefix if missing. -/
def sqliteParamKey (k : String) : String :=
  if jsStartsWith k ":" then k else ":" ++ k

/-- `sqliteTransformer` from `src/adapters/sqlite.js`: the SQL is returned
unchanged and every parameter key gains a `:` prefix if it lacks one. -/
def sqliteTransformer (sql : String) (params : Params) : String × Params :=
  (sql, params.foldl (fun acc p => objSet acc (sqliteParamKey p.1) p.2) [])

/-- `postgresTransformer` from `src/adapters/postgres.js`: with an empty
parameter object the input passes through; otherwise `$name` markers are
rewritten to `:name` and the parameter object is kept. -/
def postgresTransformer (sql : String) (params : Params) : String × Params :=
  if params.isEmpty then (sql, [])
  else (String.mk (pgRewriteMarkers sql.data), params)

theorem pgRewriteMarkersFuel_id_of_noMarker :
    ∀ (fuel : Nat) (l : List Char), hasDollarMarker l = false →
      pgRewriteMarkersFuel fuel l = l := by
  intro fuel
  induction fuel with
  | zero => intro l _; rfl
  | succ n ih =>
      intro l h
      cases l with
      | nil => rfl
      | cons c cs =>
          rw [hasDollarMarker] at h
          simp only [Bool.or_eq_false_iff] at h
          rw [pgRewriteMarkersFuel, if_neg (by simp [h.1]), ih cs h.2]

theorem pgRewriteMarkers_id_of_noMarker :
    ∀ l : List Char, hasDollarMarker l = false → pgRewriteMarkers l = l :=
  fun l h => pgRewriteMarkersFuel_id_of_noMarker l.length l h

/-- C8: a statement with no parameter markers and an empty parameter set passes
through every backend transformer unchanged, with an empty bound-parameter
object; in particular the networked rewrite pass leaves the text untouched. -/
theorem transform_empty_passthrough (sql : String)
    (h : hasDollarMarker sql.data = false) :
    defaultSqlTransformer sql [] = (sql, [])
    ∧ sqliteTransformer sql [] = (sql, [])
    ∧ postgresTransformer sql [] = (sql, [])
    ∧ pgRewriteMarkers sql.data = sql.data := by
  refine ⟨rfl, rfl, rfl, pgRewriteMarkers_id_of_noMarker sql.data h⟩

/-- Witness for C8 at the concrete statement `SELECT 1 FROM users`. -/
theorem transform_empty_passthrough_witness :
    defaultSqlTransformer "SELECT 1 FROM users" [] = ("SELECT 1 FROM users", [])
    ∧ sqliteTransformer "SELECT 1 FROM users" [] = ("SELECT 1 FROM users", [])
    ∧ postgresTransformer "SELECT 1 FROM users" [] = ("SELECT 1 FROM users", [])
    ∧ pgRewriteMarkers "SELECT 1 FROM users".data = "SELECT 1 FROM users".data :=
  transform_empty_passthrough "SELECT 1 FROM users" (by decide)

/-! ## Migration runner (`src/adapters/base.js`) -/

/-- Migration-relevant database state.  Modelled from the spec:
the `_migrations` tracking table (rows in insertion order, `name` primary
key) together with whether it has been created, plus a log of the migration
files whose SQL the runner has handed to `executeQuery`.  The user tables
touched by migration SQL are abstracted into the `execOk` oracle below. -/
structure MigState where
  tableExists : Bool
  applied : List String
  executedLog : List String
deriving DecidableEq

/-- Effect on the tracking table of the `CREATE TABLE IF NOT EXISTS
_migrations` statement issued by `setupMigrationTable`. -/
def setupMigrationTable (s : MigState) : MigState :=
  { s with tableExists := true }

/-- Effect of `getAppliedMigrations` (`SELECT name FROM _migrations`). -/
def getAppliedMigrations (s : MigState) : List String :=
  s.applied

/-- Effect of `recordMigration` (`INSERT INTO _migrations (name) VALUES
($name)`).  Modelled from the spec: `name` is the primary key, so inserting
a name already present fails; otherwise the row is appended. -/
def recordMigration (s : MigState) (name : String) : MigState × Except String Unit :=
  if s.applied.contains name then
    (s, .error ("UNIQUE constraint failed: _migrations.name: " ++ name))
  else ({ s with applied := s.applied ++ [name] }, .ok ())

/-- Lexicographic comparison of character sequences by code point, the order
used by the JS default `Array.prototype.sort` on strings. -/
def charListLe : List Char → List Char → Bool
  | [], _ => true
  | _ :: _, [] => false
  | a :: as, b :: bs =>
    if a.toNat < b.toNat then true
    else if b.toNat < a.toNat then false
    else charListLe as bs

/-- The string order of the JS default `sort()`. -/
def jsStrLe (a b : String) : Bool :=
  charListLe a.data b.data

theorem charListLe_total : ∀ a b : List Char,
    charListLe a b = true ∨ charListLe b a = true := by
  intro a
  induction a with
  | nil => intro b; left; cases b <;> rfl
  | cons x xs ih =>
      intro b
      cases b with
      | nil => right; rfl
      | cons y ys =>
          by_cases h1 : x.toNat < y.toNat
          · left; simp [charListLe, h1]
          · by_cases h2 : y.toNat < x.toNat
            · right; simp [charListLe, h2]
            · cases ih ys with
              | inl h => left; simp [charListLe, h1, h2, h]
              | inr h => right; simp [charListLe, h1, h2, h]

theorem charListLe_trans : ∀ a b c : List Char,
    charListLe a b = true → charListLe b c = true → charListLe a c = true := by
  intro a
  induction a with
  | nil => intro b c _ _; cases c <;> rfl
  | cons x xs ih =>
      intro b c hab hbc
      cases b with
      | nil => simp [charListLe] at hab
      | cons y ys =>
          cases c with
          | nil => simp [charListLe] at hbc
          | cons z zs =>
              simp only [charListLe] at hab hbc ⊢
              by_cases hxy : x.toNat < y.toNat
              · by_cases hyz : y.toNat < z.toNat
                · have : x.toNat < z.toNat := Nat.lt_trans hxy hyz
                  simp [this]
                · by_cases hzy : z.toNat < y.toNat
                  · simp [hyz, hzy] at hbc
                  · have hyzeq : y.toNat = z.toNat := Nat.le_antisymm
                      (Nat.le_of_not_lt hzy) (Nat.le_of_not_lt hyz)
                    have : x.toNat < z.toNat := hyzeq ▸ hxy
                    simp [this]
              · by_cases hyx : y.toNat < x.toNat
                · simp [hxy, hyx] at hab
                · have hxyeq : x.toNat = y.toNat := Nat.le_antisymm
                    (Nat.le_of_not_lt hyx) (Nat.le_of_not_lt hxy)
                  simp only [hxy, if_false, hyx, if_false] at hab
                  by_cases hyz : y.toNat < z.toNat
                  · have : x.toNat < z.toNat := hxyeq ▸ hyz
                    simp [this]
                  · by_cases hzy : z.toNat < y.toNat
                    · simp [hyz, hzy] at hbc
                    · simp only [hyz, if_false, hzy, if_false] at hbc
                      have h1 : ¬ x.toNat < z.toNat := hxyeq ▸ hyz
                      have h2 : ¬ z.toNat < x.toNat := hxyeq ▸ hzy
                      simp [h1, h2, ih ys zs hab hbc]

instance : IsTotal String (fun a b => jsStrLe a b = true) :=
  ⟨fun a b => charListLe_total a.data b.data⟩

instance : IsTrans String (fun a b => jsStrLe a b = true) :=
  ⟨fun a b c => charListLe_trans a.data b.data c.data⟩

/-- `listMigrationFiles` from `src/adapters/base.js`: on a readdir failure
the error is logged and the empty list is returned; otherwise keep the file
names starting with `_` and ending in `.sql`, sorted ascending. -/
def listMigrationFiles (fsList : Except String (List String)) : List String :=
  match fsList with
  | .error _ => []
  | .ok files =>
      List.insertionSort (fun a b => jsStrLe a b = true)
        (files.filter (fun f => jsStartsWith f "_" && jsEndsWith f ".sql"))

/-- `runMigration` from `src/adapters/base.js`.  `resolve` is the adapter's
`fileResolver` oracle and `execOk` tells whether executing a given SQL text
against the database succeeds.  The file is logged as executed exactly when
its SQL reaches `executeQuery`, and recorded in the tracking table after a
successful execution. -/
def runMigration (resolve : String → Except String String) (execOk : String → Bool)
    (s : MigState) (migrationFile : String) : MigState × Except String Unit :=
  match resolve (jsReplaceFirst migrationFile ".sql") with
  | .error e => (s, .error e)
  | .ok sql =>
      let s1 := { s with executedLog := s.executedLog ++ [migrationFile] }
      if execOk sql then recordMigration s1 migrationFile
      else (s1, .error ("Migration SQL failed: " ++ migrationFile))

/-- The `for (const migFile of pendingMigrations)` loop of `runMigrations`:
stops at the first failing migration and propagates its error. -/
def runMigrationList (resolve : String → Except String String) (execOk : String → Bool) :
    MigState → List String → MigState × Except String Unit
  | s, [] => (s, .ok ())
  | s, f :: rest =>
      match runMigration resolve execOk s f with
      | (s1, .ok _) => runMigrationList resolve execOk s1 rest
      | (s1, .error e) => (s1, .error e)

/-- The `pendingMigrations` binding of `runMigrations`: migration files not
yet present in the applied set. -/
def pendingMigrationsOf (fsList : Except String (List String)) (s : MigState) :
    List String :=
  (listMigrationFiles fsList).filter (fun f => !s.applied.contains f)

/-- `runMigrations` from `src/adapters/base.js`.  The surrounding
`try`/`catch` only logs and rethrows, so it is the identity on errors. -/
def runMigrations (resolve : String → Except String String) (execOk : String → Bool)
    (fsList : Except String (List String)) (s : MigState) :
    MigState × Except String Unit :=
  let s1 := setupMigrationTable s
  let migrationFiles := listMigrationFiles fsList
  if migrationFiles.isEmpty then (s1, .ok ())
  else
    let pendingMigrations :=
      migrationFiles.filter (fun f => !(getAppliedMigrations s1).contains f)
    if pendingMigrations.isEmpty then (s1, .ok ())
    else runMigrationList resolve execOk s1 pendingMigrations

theorem contains_eq_false_iff {l : List String} {a : String} :
    l.contains a = false ↔ a ∉ l := by
  simp [List.contains, List.elem_iff]

theorem contains_eq_true_iff {l : List String} {a : String} :
    l.contains a = true ↔ a ∈ l := by
  simp [List.contains, List.elem_iff]

theorem runMigration_ok_state {resolve : String → Except String String}
    {execOk : String → Bool} {s s' : MigState} {f : String}
    (h : runMigration resolve execOk s f = (s', .ok ())) :
    s.applied.contains f = false ∧
    s' = { s with applied := s.applied ++ [f],
                  executedLog := s.executedLog ++ [f] } := by
  obtain ⟨te, ap, lg⟩ := s
  unfold runMigration at h
  cases hres : resolve (jsReplaceFirst f ".sql") with
  | error e => rw [hres] at h; cases h
  | ok sql =>
      rw [hres] at h
      dsimp only at h ⊢
      by_cases hx : execOk sql
      · rw [if_pos hx] at h
        unfold recordMigration at h
        dsimp only at h
        cases hc : ap.contains f with
        | true =>
            rw [hc] at h
            simp at h
        | false =>
            rw [hc] at h
            simp only [Bool.false_eq_true, if_false, Prod.mk.injEq, and_true] at h
            exact ⟨rfl, h.symm⟩
      · rw [if_neg hx] at h; cases h

theorem runMigration_ok_of {resolve : String → Except String String}
    {execOk : String → Bool} {f sql : String} (s : MigState)
    (hres : resolve (jsReplaceFirst f ".sql") = .ok sql) (hx : execOk sql = true)
    (hc : s.applied.contains f = false) :
    runMigration resolve execOk s f =
      ({ s with applied := s.applied ++ [f],
                executedLog := s.executedLog ++ [f] }, .ok ()) := by
  obtain ⟨te, ap, lg⟩ := s
  simp only at hc
  unfold runMigration recordMigration
  rw [hres]
  simp [hx, hc, contains_eq_false_iff.mp hc]

theorem runMigration_error_exec {resolve : String → Except String String}
    {execOk : String → Bool} {f sqlf : String} (s : MigState)
    (hres : resolve (jsReplaceFirst f ".sql") = .ok sqlf) (hx : execOk sqlf = false) :
    runMigration resolve execOk s f =
      ({ s with executedLog := s.executedLog ++ [f] },
        .error ("Migration SQL failed: " ++ f)) := by
  unfold runMigration
  rw [hres]
  simp [hx]

theorem runMigrationList_ok_state (resolve : String → Except String String)
    (execOk : String → Bool) :
    ∀ (l : List String) (s s' : MigState),
      runMigrationList resolve execOk s l = (s', .ok ()) →
      s' = { s with applied := s.applied ++ l,
                    executedLog := s.executedLog ++ l } := by
  intro l
  induction l with
  | nil =>
      intro s s' h
      simp only [runMigrationList, Prod.mk.injEq, and_true] at h
      rw [← h]
      simp
  | cons f rest ih =>
      intro s s' h
      simp only [runMigrationList] at h
      cases hr : runMigration resolve execOk s f with
      | mk s1 r =>
          rw [hr] at h
          cases r with
          | error e => cases h
          | ok u =>
              cases u
              obtain ⟨-, hs1⟩ := runMigration_ok_state hr
              have hrec := ih s1 s' h
              obtain ⟨te, ap, lg⟩ := s
              rw [hs1] at hrec
              simpa using hrec

theorem runMigrationList_ok_nodup (resolve : String → Except String String)
    (execOk : String → Bool) :
    ∀ (l : List String) (s s' : MigState),
      runMigrationList resolve execOk s l = (s', .ok ()) →
      s.applied.Nodup → s'.applied.Nodup := by
  intro l
  induction l with
  | nil =>
      intro s s' h hn
      simp only [runMigrationList, Prod.mk.injEq, and_true] at h
      rw [← h]
      exact hn
  | cons f rest ih =>
      intro s s' h hn
      simp only [runMigrationList] at h
      cases hr : runMigration resolve execOk s f with
      | mk s1 r =>
          rw [hr] at h
          cases r with
          | error e => cases h
          | ok u =>
              cases u
              obtain ⟨hc, hs1⟩ := runMigration_ok_state hr
              refine ih s1 s' h ?_
              rw [hs1]
              simp [List.nodup_append, hn, contains_eq_false_iff.mp hc]

theorem setupMigrationTable_eq_self {s : MigState} (h : s.tableExists = true) :
    setupMigrationTable s = s := by
  obtain ⟨te, ap, lg⟩ := s
  simp only at h
  simp [setupMigrationTable, h]

theorem runMigrations_ok_state {resolve : String → Except String String}
    {execOk : String → Bool} {fsList : Except String (List String)}
    {s s' : MigState}
    (h : runMigrations resolve execOk fsList s = (s', .ok ())) :
    s' = { s with tableExists := true,
                  applied := s.applied ++ pendingMigrationsOf fsList s,
                  executedLog := s.executedLog ++ pendingMigrationsOf fsList s } := by
  unfold runMigrations at h
  by_cases hempty : (listMigrationFiles fsList).isEmpty
  · rw [if_pos hempty] at h
    have hnil : listMigrationFiles fsList = [] := List.isEmpty_iff.mp hempty
    simp only [Prod.mk.injEq, and_true] at h
    rw [← h]
    obtain ⟨te, ap, lg⟩ := s
    simp [setupMigrationTable, pendingMigrationsOf, hnil]
  · rw [if_neg hempty] at h
    dsimp only [getAppliedMigrations, setupMigrationTable] at h
    by_cases hp : ((listMigrationFiles fsList).filter
        (fun f => !s.applied.contains f)).isEmpty
    · rw [if_pos hp] at h
      have hnil := List.isEmpty_iff.mp hp
      simp only [Prod.mk.injEq, and_true] at h
      rw [← h]
      obtain ⟨te, ap, lg⟩ := s
      simp only [pendingMigrationsOf]
      dsimp only at hnil ⊢
      rw [hnil]
      simp [setupMigrationTable]
    · rw [if_neg hp] at h
      have hrec := runMigrationList_ok_state resolve execOk _ _ _ h
      obtain ⟨te, ap, lg⟩ := s
      rw [hrec]
      simp [setupMigrationTable, pendingMigrationsOf]

theorem runMigrations_ok_nodup {resolve : String → Except String String}
    {execOk : String → Bool} {fsList : Except String (List String)}
    {s s' : MigState}
    (h : runMigrations resolve execOk fsList s = (s', .ok ()))
    (hn : s.applied.Nodup) : s'.applied.Nodup := by
  unfold runMigrations at h
  by_cases hempty : (listMigrationFiles fsList).isEmpty
  · rw [if_pos hempty] at h
    simp only [Prod.mk.injEq, and_true] at h
    rw [← h]
    exact hn
  · rw [if_neg hempty] at h
    dsimp only [getAppliedMigrations, setupMigrationTable] at h
    by_cases hp : ((listMigrationFiles fsList).filter
        (fun f => !s.applied.contains f)).isEmpty
    · rw [if_pos hp] at h
      simp only [Prod.mk.injEq, and_true] at h
      rw [← h]
      exact hn
    · rw [if_neg hp] at h
      exact runMigrationList_ok_nodup resolve execOk _ _ _ h hn

/-- C1: running `runMigrations` a second time from the state a successful run
produced applies zero migrations and leaves both the tracking table and the
execution log unchanged; every file already in the applied set is skipped,
and each applied migration's name is recorded exactly once (the applied list
is the old list extended by the pending files, with no duplicates). -/
theorem migration_idempotence (resolve : String → Except String String)
    (execOk : String → Bool) (fsList : Except String (List String))
    (s0 s1 : MigState)
    (h : runMigrations resolve execOk fsList s0 = (s1, .ok ()))
    (hnd : s0.applied.Nodup) :
    runMigrations resolve execOk fsList s1 = (s1, .ok ())
    ∧ s1.applied = s0.applied ++ pendingMigrationsOf fsList s0
    ∧ s1.applied.Nodup := by
  have hstate := runMigrations_ok_state h
  have happlied : s1.applied = s0.applied ++ pendingMigrationsOf fsList s0 := by
    rw [hstate]
  have hte : s1.tableExists = true := by rw [hstate]
  refine ⟨?_, happlied, runMigrations_ok_nodup h hnd⟩
  unfold runMigrations
  rw [setupMigrationTable_eq_self hte]
  by_cases hempty : (listMigrationFiles fsList).isEmpty
  · rw [if_pos hempty]
  · rw [if_neg hempty]
    dsimp only [getAppliedMigrations]
    have hnil : (listMigrationFiles fsList).filter
        (fun f => !s1.applied.contains f) = [] := by
      rw [List.filter_eq_nil_iff]
      intro f hf
      have hmem : f ∈ s1.applied := by
        rw [happlied]
        by_cases hin : f ∈ s0.applied
        · exact List.mem_append_left _ hin
        · refine List.mem_append_right _ ?_
          rw [pendingMigrationsOf, List.mem_filter]
          exact ⟨hf, by simpa using hin⟩
      simp [contains_eq_true_iff.mpr hmem, hmem]
    rw [hnil]
    simp

/-- Fixture file resolver for the migration-runner witnesses. -/
def wResolve : String → Except String String :=
  fun n => .ok ("-- sql of " ++ n)

/-- Witness for C1: two migration files on a fresh database; the first run
applies both, the second run is the identity. -/
theorem migration_idempotence_witness :
    runMigrations wResolve (fun _ => true)
        (.ok ["_0002_b.sql", "notes.txt", "_0001_a.sql", "users.sql"])
        ⟨true, ["_0001_a.sql", "_0002_b.sql"], ["_0001_a.sql", "_0002_b.sql"]⟩
      = (⟨true, ["_0001_a.sql", "_0002_b.sql"], ["_0001_a.sql", "_0002_b.sql"]⟩, .ok ())
    ∧ (⟨true, ["_0001_a.sql", "_0002_b.sql"],
        ["_0001_a.sql", "_0002_b.sql"]⟩ : MigState).applied
      = ([] : List String) ++ pendingMigrationsOf
          (.ok ["_0002_b.sql", "notes.txt", "_0001_a.sql", "users.sql"]) ⟨false, [], []⟩
    ∧ (⟨true, ["_0001_a.sql", "_0002_b.sql"],
        ["_0001_a.sql", "_0002_b.sql"]⟩ : MigState).applied.Nodup :=
  migration_idempotence wResolve (fun _ => true)
    (.ok ["_0002_b.sql", "notes.txt", "_0001_a.sql", "users.sql"])
    ⟨false, [], []⟩ _ rfl (by decide)

theorem runMigrationList_stops (resolve : String → Except String String)
    (execOk : String → Bool) :
    ∀ (p1 : List String) (f : String) (p2 : List String) (s : MigState),
      (∀ g ∈ p1, ∃ sq, resolve (jsReplaceFirst g ".sql") = .ok sq ∧ execOk sq = true) →
      (∀ g ∈ p1, g ∉ s.applied) → p1.Nodup →
      (∃ sqf, resolve (jsReplaceFirst f ".sql") = .ok sqf ∧ execOk sqf = false) →
      runMigrationList resolve execOk s (p1 ++ f :: p2) =
        ({ s with applied := s.applied ++ p1,
                  executedLog := s.executedLog ++ p1 ++ [f] },
          .error ("Migration SQL failed: " ++ f)) := by
  intro p1
  induction p1 with
  | nil =>
      intro f p2 s hok hfresh hnd hf
      obtain ⟨sqf, hres, hx⟩ := hf
      simp only [List.nil_append]
      simp only [runMigrationList]
      rw [runMigration_error_exec s hres hx]
      obtain ⟨te, ap, lg⟩ := s
      simp
  | cons g rest ih =>
      intro f p2 s hok hfresh hnd hf
      obtain ⟨sq, hres, hx⟩ := hok g (List.mem_cons_self g rest)
      have hcg : s.applied.contains g = false :=
        contains_eq_false_iff.mpr (hfresh g (List.mem_cons_self g rest))
      rw [List.nodup_cons] at hnd
      simp only [List.cons_append, runMigrationList]
      rw [runMigration_ok_of s hres hx hcg]
      have hfresh2 : ∀ g2 ∈ rest,
          g2 ∉ ({ s with applied := s.applied ++ [g],
                         executedLog := s.executedLog ++ [g] } : MigState).applied := by
        intro g2 hg2
        dsimp only
        rw [List.mem_append]
        rintro (hmem | hmem)
        · exact hfresh g2 (List.mem_cons_of_mem _ hg2) hmem
        · rw [List.mem_singleton] at hmem
          exact hnd.1 (hmem ▸ hg2)
      have hrec := ih f p2 _
        (fun g2 hg2 => hok g2 (List.mem_cons_of_mem _ hg2)) hfresh2 hnd.2 hf
      dsimp only
      simp only [List.append_eq]
      rw [hrec]
      obtain ⟨te, ap, lg⟩ := s
      simp

/-- C2: when one pending migration's SQL fails to execute, `runMigrations`
executes and records exactly the pending migrations sorted before it,
executes the failing file, and propagates the error: no migration file
sorted after the failing one is executed or recorded. -/
theorem migration_stops_on_failure (resolve : String → Except String String)
    (execOk : String → Bool) (files : List String) (s : MigState)
    (p1 : List String) (f : String) (p2 : List String)
    (hpend : pendingMigrationsOf (.ok files) s = p1 ++ f :: p2)
    (hnd : p1.Nodup)
    (hok : ∀ g ∈ p1, ∃ sq, resolve (jsReplaceFirst g ".sql") = .ok sq ∧ execOk sq = true)
    (hf : ∃ sqf, resolve (jsReplaceFirst f ".sql") = .ok sqf ∧ execOk sqf = false) :
    runMigrations resolve execOk (.ok files) s =
      ({ s with tableExists := true, applied := s.applied ++ p1,
                executedLog := s.executedLog ++ p1 ++ [f] },
        .error ("Migration SQL failed: " ++ f)) := by
  obtain ⟨te, ap, lg⟩ := s
  simp only [pendingMigrationsOf] at hpend
  unfold runMigrations
  have hne : ¬ (listMigrationFiles (.ok files)).isEmpty = true := by
    intro hcon
    rw [List.isEmpty_iff.mp hcon] at hpend
    simp at hpend
  rw [if_neg hne]
  dsimp only [getAppliedMigrations, setupMigrationTable]
  rw [hpend]
  have hpne : ¬ (p1 ++ f :: p2).isEmpty = true := by cases p1 <;> simp
  rw [if_neg hpne]
  have hfresh : ∀ g ∈ p1,
      g ∉ ({ tableExists := true, applied := ap, executedLog := lg } : MigState).applied := by
    intro g hg
    have hmem : g ∈ List.filter (fun x => !ap.contains x) (listMigrationFiles (.ok files)) := by
      rw [hpend]
      exact List.mem_append_left _ hg
    rw [List.mem_filter] at hmem
    dsimp only
    simpa using hmem.2
  have := runMigrationList_stops resolve execOk p1 f p2
    ⟨true, ap, lg⟩ hok hfresh hnd hf
  rw [this]

/-- Fixture success oracle for the C2 witness: executing the SQL of
migration `_0002_b` fails, everything else succeeds. -/
def wExecFail : String → Bool :=
  fun sq => !(jsIncludes sq "_0002_b")

/-- Witness for C2: of three pending migrations the second fails, so the
first is applied and recorded, the failing one is executed but not
recorded, and the third is never touched. -/
theorem migration_stops_on_failure_witness :
    runMigrations wResolve wExecFail
        (.ok ["_0001_a.sql", "_0002_b.sql", "_0003_c.sql"]) ⟨false, [], []⟩ =
      (⟨true, ["_0001_a.sql"], ["_0001_a.sql", "_0002_b.sql"]⟩,
        .error "Migration SQL failed: _0002_b.sql") :=
  migration_stops_on_failure wResolve wExecFail
    ["_0001_a.sql", "_0002_b.sql", "_0003_c.sql"] ⟨false, [], []⟩
    ["_0001_a.sql"] "_0002_b.sql" ["_0003_c.sql"] rfl (by decide)
    (by
      intro g hg
      rw [List.mem_singleton] at hg
      subst hg
      exact ⟨"-- sql of _0001_a", rfl, rfl⟩)
    ⟨"-- sql of _0002_b", rfl, rfl⟩

/-- C4: `listMigrationFiles` enumerates exactly the underscore-prefixed
`.sql` files, sorted ascending in lexicographic order, and a successful
`runMigrations` executes the pending files in exactly that sorted order. -/
theorem migration_ordering (files : List String)
    (resolve : String → Except String String) (execOk : String → Bool)
    (s s' : MigState)
    (hrun : runMigrations resolve execOk (.ok files) s = (s', .ok ())) :
    (listMigrationFiles (.ok files)).Sorted (fun a b => jsStrLe a b = true)
    ∧ (listMigrationFiles (.ok files)).Perm
        (files.filter (fun f => jsStartsWith f "_" && jsEndsWith f ".sql"))
    ∧ s'.executedLog = s.executedLog ++ pendingMigrationsOf (.ok files) s
    ∧ (pendingMigrationsOf (.ok files) s).Sorted (fun a b => jsStrLe a b = true) := by
  have hsorted : (listMigrationFiles (.ok files)).Sorted
      (fun a b => jsStrLe a b = true) :=
    List.sorted_insertionSort _ _
  refine ⟨hsorted, List.perm_insertionSort _ _, ?_, hsorted.filter _⟩
  rw [runMigrations_ok_state hrun]

/-- Witness for C4 on two out-of-order migration files and a fresh state. -/
theorem migration_ordering_witness :
    (listMigrationFiles (.ok ["_0002_b.sql", "_0001_a.sql", "x.sql"])).Sorted
        (fun a b => jsStrLe a b = true)
    ∧ (listMigrationFiles (.ok ["_0002_b.sql", "_0001_a.sql", "x.sql"])).Perm
        (["_0002_b.sql", "_0001_a.sql", "x.sql"].filter
          (fun f => jsStartsWith f "_" && jsEndsWith f ".sql"))
    ∧ (⟨true, ["_0001_a.sql", "_0002_b.sql"],
        ["_0001_a.sql", "_0002_b.sql"]⟩ : MigState).executedLog
      = ([] : List String) ++
          pendingMigrationsOf (.ok ["_0002_b.sql", "_0001_a.sql", "x.sql"]) ⟨false, [], []⟩
    ∧ (pendingMigrationsOf (.ok ["_0002_b.sql", "_0001_a.sql", "x.sql"])
        ⟨false, [], []⟩).Sorted (fun a b => jsStrLe a b = true) :=
  migration_ordering ["_0002_b.sql", "_0001_a.sql", "x.sql"] wResolve
    (fun _ => true) ⟨false, [], []⟩ _ rfl

/-- C10: when enumerating the configured SQL directory fails,
`listMigrationFiles` swallows the error and returns the empty list, so
`runMigrations` completes successfully as a no-op that only ensures the
tracking table exists. -/
theorem migrations_noop_on_fs_error (resolve : String → Except String String)
    (execOk : String → Bool) (e : String) (s : MigState) :
    listMigrationFiles (.error e) = []
    ∧ runMigrations resolve execOk (.error e) s = (setupMigrationTable s, .ok ()) :=
  ⟨rfl, rfl⟩

/-! ## Embedded (SQLite) adapter `executeQuery` (`src/adapters/sqlite.js`) -/

/-- Oracle for the `bun:sqlite` database handle of an initialized adapter:
`queryAll s stmt` is `db.query(stmt).all()` and `prepareAll s stmt ps` is
`db.prepare(stmt).all(ps)`; both may fail and may advance the abstract
database state `σ`. -/
structure SqliteDb (σ : Type) where
  queryAll : σ → String → σ × Except String (List Row)
  prepareAll : σ → String → Params → σ × Except String (List Row)

/-- The `statements` binding of the sqlite `executeQuery`: split on `;`,
trim each piece, drop the blanks. -/
def splitStatements (sql : String) : List String :=
  ((jsSplitChar sql ';').map jsTrim).filter (fun st => st.length > 0)

/-- One statement execution, parameters already transformed: with bound
parameters try the prepared path and fall back to plain execution of the
raw text on a binding error; without parameters execute plainly. -/
def sqliteExecStmt {σ : Type} (db : SqliteDb σ) (tparams : Params) (s : σ)
    (stmt : String) : σ × Except String (List Row) :=
  if tparams.isEmpty then db.queryAll s stmt
  else
    match db.prepareAll s stmt tparams with
    | (s1, .ok r) => (s1, .ok r)
    | (s1, .error _) => db.queryAll s1 stmt

/-- The multi-statement loop of the sqlite `executeQuery`: a failing
statement is logged and skipped, a non-empty result is appended to the
accumulator. -/
def sqliteMultiLoop {σ : Type} (db : SqliteDb σ) (tparams : Params) :
    σ → List String → List Row → σ × List Row
  | s, [], acc => (s, acc)
  | s, stmt :: rest, acc =>
      match sqliteExecStmt db tparams s stmt with
      | (s1, .ok r) =>
          sqliteMultiLoop db tparams s1 rest (if r.isEmpty then acc else acc ++ r)
      | (s1, .error _) => sqliteMultiLoop db tparams s1 rest acc

/-- `executeQuery` of the initialized sqlite adapter
(`src/adapters/sqlite.js`): apply the parameter transformation, take the
multi-statement path when the text contains `;` and splits into more than
one non-blank statement, otherwise the single-statement path.  The
surrounding `try`/`catch` only logs and rethrows. -/
def sqliteExecuteQuery {σ : Type} (db : SqliteDb σ) (s : σ) (sql : String)
    (params : Params) : σ × Except String (List Row) :=
  let tparams := (sqliteTransformer sql params).2
  if jsIncludesChar sql ';' && (splitStatements sql).length > 1 then
    match sqliteMultiLoop db tparams s (splitStatements sql) [] with
    | (s1, rows) => (s1, .ok rows)
  else
    sqliteExecStmt db tparams s sql

/-- Reference runner following the words of the spec for C5: execute each
statement sequentially in order through the plain-execution oracle,
collecting one row set per statement (the empty set for a statement
producing no rows or failing). -/
def runStatementsSeq {σ : Type} (db : SqliteDb σ) :
    σ → List String → σ × List (List Row)
  | s, [] => (s, [])
  | s, stmt :: rest =>
      match db.queryAll s stmt with
      | (s1, .ok r) =>
          match runStatementsSeq db s1 rest with
          | (s2, rs) => (s2, r :: rs)
      | (s1, .error _) =>
          match runStatementsSeq db s1 rest with
          | (s2, rs) => (s2, [] :: rs)

theorem sqliteMultiLoop_flatten {σ : Type} (db : SqliteDb σ) :
    ∀ (stmts : List String) (s : σ) (acc : List Row),
      sqliteMultiLoop db [] s stmts acc =
        ((runStatementsSeq db s stmts).1,
          acc ++ (runStatementsSeq db s stmts).2.flatten) := by
  intro stmts
  induction stmts with
  | nil => intro s acc; simp [sqliteMultiLoop, runStatementsSeq]
  | cons stmt rest ih =>
      intro s acc
      simp only [sqliteMultiLoop, runStatementsSeq, sqliteExecStmt,
        List.isEmpty_nil, if_true]
      cases hq : db.queryAll s stmt with
      | mk s1 r =>
          cases r with
          | ok rows =>
              dsimp only
              rw [ih]
              cases hrec : runStatementsSeq db s1 rest with
              | mk s2 rs =>
                  by_cases hrows : rows.isEmpty
                  · rw [List.isEmpty_iff.mp hrows]
                    simp
                  · simp [hrows, List.append_assoc]
          | error e =>
              dsimp only
              rw [ih]
              cases hrec : runStatementsSeq db s1 rest with
              | mk s2 rs => simp

/-! ## The earlier sqlite adapter variant (`db/adapter.js`) -/

/-- The multi-statement loop of the `db/adapter.js` sqlite `executeQuery`:
each collected row set is pushed, a failing statement propagates its error,
and the collected sets are flattened at the end. -/
def dbAdapterMultiLoop {σ : Type} (db : SqliteDb σ) :
    σ → List String → List (List Row) → σ × Except String (List Row)
  | s, [], acc => (s, .ok acc.flatten)
  | s, stmt :: rest, acc =>
      match db.queryAll s stmt with
      | (s1, .ok r) => dbAdapterMultiLoop db s1 rest (acc ++ [r])
      | (s1, .error e) => (s1, .error e)

/-- `executeQuery` of the sqlite adapter in `db/adapter.js`: with a `;` in
the text and no parameters, split on `;`, keep the (untrimmed) statements
whose trim is non-blank, execute each in order and flatten the results;
otherwise a single plain or parameter-bound execution. -/
def dbAdapterExecuteQuery {σ : Type} (db : SqliteDb σ) (s : σ) (sql : String)
    (params : Params) : σ × Except String (List Row) :=
  if jsIncludesChar sql ';' && params.isEmpty then
    dbAdapterMultiLoop db s
      ((jsSplitChar sql ';').filter (fun st => !(jsTrim st).isEmpty)) []
  else if params.isEmpty then db.queryAll s sql
  else db.prepareAll s sql params

/-- Reference strict runner following the words of the spec for C5: execute
each statement sequentially, collecting one row set per statement, and stop
at the first failure. -/
def runStatementsStrict {σ : Type} (db : SqliteDb σ) :
    σ → List String → σ × Except String (List (List Row))
  | s, [] => (s, .ok [])
  | s, stmt :: rest =>
      match db.queryAll s stmt with
      | (s1, .ok r) =>
          match runStatementsStrict db s1 rest with
          | (s2, .ok rs) => (s2, .ok (r :: rs))
          | (s2, .error e) => (s2, .error e)
      | (s1, .error e) => (s1, .error e)

/-- Flatten the per-statement row sets of a strict run into one list. -/
def flattenStrict {σ : Type} :
    σ × Except String (List (List Row)) → σ × Except String (List Row)
  | (s, .ok rs) => (s, .ok rs.flatten)
  | (s, .error e) => (s, .error e)

theorem dbAdapterMultiLoop_flatten {σ : Type} (db : SqliteDb σ) :
    ∀ (stmts : List String) (s : σ) (acc : List (List Row)),
      dbAdapterMultiLoop db s stmts acc =
        (match runStatementsStrict db s stmts with
          | (s2, .ok rs) => (s2, .ok (acc ++ rs).flatten)
          | (s2, .error e) => (s2, .error e)) := by
  intro stmts
  induction stmts with
  | nil => intro s acc; simp [dbAdapterMultiLoop, runStatementsStrict]
  | cons stmt rest ih =>
      intro s acc
      simp only [dbAdapterMultiLoop, runStatementsStrict]
      cases hq : db.queryAll s stmt with
      | mk s1 r =>
          cases r with
          | ok rows =>
              dsimp only
              rw [ih]
              cases hrec : runStatementsStrict db s1 rest with
              | mk s2 res =>
                  cases res with
                  | ok rs => simp
                  | error e => simp
          | error e => simp

/-- C5: on the embedded adapter, a multi-statement input executed with no
bound parameters is split on `;`, each non-blank statement runs
sequentially in file order, and the returned value is the flat
concatenation of all produced row sets — in both sqlite adapter variants
of the repository. -/
theorem sqlite_multi_statement_flat {σ : Type} (db : SqliteDb σ) (s : σ)
    (sql : String)
    (hsemi : jsIncludesChar sql ';' = true)
    (hmulti : 1 < (splitStatements sql).length) :
    sqliteExecuteQuery db s sql [] =
      ((runStatementsSeq db s (splitStatements sql)).1,
        .ok (runStatementsSeq db s (splitStatements sql)).2.flatten)
    ∧ dbAdapterExecuteQuery db s sql [] =
        flattenStrict (runStatementsStrict db s
          ((jsSplitChar sql ';').filter (fun st => !(jsTrim st).isEmpty))) := by
  constructor
  · unfold sqliteExecuteQuery
    have htp : (sqliteTransformer sql []).2 = [] := rfl
    rw [htp]
    have hcond : (jsIncludesChar sql ';'
        && decide ((splitStatements sql).length > 1)) = true := by
      simp [hsemi, hmulti]
    rw [if_pos hcond]
    rw [sqliteMultiLoop_flatten]
    cases hrec : runStatementsSeq db s (splitStatements sql) with
    | mk s2 rs => simp
  · unfold dbAdapterExecuteQuery
    have hcond : (jsIncludesChar sql ';' && ([] : Params).isEmpty) = true := by
      simp [hsemi]
    rw [if_pos hcond]
    rw [dbAdapterMultiLoop_flatten]
    cases hrec : runStatementsStrict db s
        ((jsSplitChar sql ';').filter (fun st => !(jsTrim st).isEmpty)) with
    | mk s2 res =>
        cases res with
        | ok rs => simp [flattenStrict]
        | error e => simp [flattenStrict]

/-- Fixture driver over a trivial state for the C5 witness: every plain
execution of a statement returns one row naming it. -/
def echoDb : SqliteDb Unit where
  queryAll := fun s stmt => (s, .ok [[("stmt", Value.vStr stmt)]])
  prepareAll := fun s _ _ => (s, .error "unused")

/-- Witness for C5 at `CREATE TABLE t(id INT); INSERT INTO t VALUES (1)`. -/
theorem sqlite_multi_statement_flat_witness :
    sqliteExecuteQuery echoDb () "CREATE TABLE t(id INT); INSERT INTO t VALUES (1)" [] =
      ((runStatementsSeq echoDb ()
          (splitStatements "CREATE TABLE t(id INT); INSERT INTO t VALUES (1)")).1,
        .ok (runStatementsSeq echoDb ()
          (splitStatements "CREATE TABLE t(id INT); INSERT INTO t VALUES (1)")).2.flatten)
    ∧ dbAdapterExecuteQuery echoDb () "CREATE TABLE t(id INT); INSERT INTO t VALUES (1)" [] =
        flattenStrict (runStatementsStrict echoDb ()
          ((jsSplitChar "CREATE TABLE t(id INT); INSERT INTO t VALUES (1)" ';').filter
            (fun st => !(jsTrim st).isEmpty))) :=
  sqlite_multi_statement_flat echoDb ()
    "CREATE TABLE t(id INT); INSERT INTO t VALUES (1)" (by decide) (by decide)

/-! ## Networked (PostgreSQL) adapter (`src/adapters/postgres.js`) -/

/-- Oracle for the Bun SQL client of an initialized adapter: `run s stmt`
is the tagged-template execution without parameters, `runParams s stmt ps`
is `pgClient(stmt, params)` with named-parameter binding. -/
structure PgClient (σ : Type) where
  run : σ → String → σ × Except String (List Row)
  runParams : σ → String → Params → σ × Except String (List Row)

/-- The fixed DDL of the `_migrations` special case in the postgres
`executeQuery`. -/
def pgMigrationsDDL : String :=
  "CREATE TABLE IF NOT EXISTS _migrations (name TEXT PRIMARY KEY, executed_at TIMESTAMP NOT NULL DEFAULT CURRENT_TIMESTAMP)"

/-- `executeSingleStatement` from `src/adapters/postgres.js`: plain
execution without parameters, named-parameter execution otherwise (its
`catch` only logs and rethrows). -/
def executeSingleStatement {σ : Type} (pg : PgClient σ) (s : σ) (stmt : String)
    (params : Params) : σ × Except String (List Row) :=
  if params.isEmpty then pg.run s stmt else pg.runParams s stmt params

/-- The statement list of the postgres multi-statement path: split on `;`
and keep the (untrimmed) pieces whose trim is non-blank. -/
def pgStatements (sql : String) : List String :=
  (jsSplitChar sql ';').filter (fun st => !(jsTrim st).isEmpty)

/-- The postgres multi-statement loop: each statement runs without
parameters; a failing statement is logged and skipped; non-empty row sets
are concatenated. -/
def pgMultiLoop {σ : Type} (pg : PgClient σ) :
    σ → List String → List Row → σ × List Row
  | s, [], acc => (s, acc)
  | s, stmt :: rest, acc =>
      match pg.run s stmt with
      | (s1, .ok r) => pgMultiLoop pg s1 rest (if r.isEmpty then acc else acc ++ r)
      | (s1, .error _) => pgMultiLoop pg s1 rest acc

/-- `executeQuery` of the initialized postgres adapter
(`src/adapters/postgres.js`): the `_migrations` DDL special case, the
parameter transformation, the split-and-continue multi-statement path, and
the single-statement path.  The surrounding `try`/`catch` only logs and
rethrows. -/
def pgExecuteQuery {σ : Type} (pg : PgClient σ) (s : σ) (sql : String)
    (params : Params) : σ × Except String (List Row) :=
  if jsIncludes sql "CREATE TABLE IF NOT EXISTS _migrations" then
    pg.run s pgMigrationsDDL
  else
    match postgresTransformer sql params with
    | (tsql, tparams) =>
        if 1 < (pgStatements tsql).length then
          match pgMultiLoop pg s (pgStatements tsql) [] with
          | (s1, rows) => (s1, .ok rows)
        else
          executeSingleStatement pg s tsql tparams

/-! ## Parameter round-trip (C6) -/

/-- Modelled from the spec: the named-parameter binding convention of the
embedded driver (`bun:sqlite`), which is outside the repository — a marker
`:x` in the statement text is bound to the entry with key `:x` of the
bound-parameter object. -/
def sqliteBindMarker (ps : Params) (marker : String) : Option Value :=
  objGet ps (":" ++ marker)

/-- Modelled from the spec: the named-parameter binding convention of the
networked driver (Bun SQL), which is outside the repository — a marker
`:x` is bound to the entry with key `x` of the parameter mapping. -/
def postgresBindMarker (ps : Params) (marker : String) : Option Value :=
  objGet ps marker

/-- Modelled from the spec: executing the single statement
`SELECT :m AS c` returns one row in which column `c` carries the value
bound to the marker `m`, and fails when the marker is unbound. -/
def runSelectMarkerAs (bind : String → Option Value) (marker col : String) :
    Except String (List Row) :=
  match bind marker with
  | some v => .ok [[(col, v)]]
  | none => .error ("missing parameter: " ++ marker)

/-- The embedded driver restricted to the statement `SELECT :x AS v`: the
prepared path binds the marker, the plain path fails because the statement
references a parameter that is then unbound. -/
def selectXDb : SqliteDb Unit where
  queryAll := fun s _ => (s, .error "no such parameter: x")
  prepareAll := fun s _ ps => (s, runSelectMarkerAs (sqliteBindMarker ps) "x" "v")

/-- The networked driver restricted to the statement `SELECT :x AS v`. -/
def selectXPg : PgClient Unit where
  run := fun s _ => (s, .error "missing parameter values")
  runParams := fun s _ ps => (s, runSelectMarkerAs (postgresBindMarker ps) "x" "v")

/-- C6: `SELECT :x AS v` executed with the parameter set `x = 42` yields
exactly one row with `v = 42` on both backends: the embedded transformer
prefixes the key with `:` so the `:x` lookup of the driver succeeds, and
the networked transformer leaves the statement and the mapping intact for
named binding; each transformer hands the driver a pair binding the marker
`:x` to 42. -/
theorem select_param_roundtrip :
    sqliteExecuteQuery selectXDb () "SELECT :x AS v" [("x", Value.vInt 42)] =
      ((), .ok [[("v", Value.vInt 42)]])
    ∧ sqliteTransformer "SELECT :x AS v" [("x", Value.vInt 42)] =
        ("SELECT :x AS v", [(":x", Value.vInt 42)])
    ∧ pgExecuteQuery selectXPg () "SELECT :x AS v" [("x", Value.vInt 42)] =
        ((), .ok [[("v", Value.vInt 42)]])
    ∧ postgresTransformer "SELECT :x AS v" [("x", Value.vInt 42)] =
        ("SELECT :x AS v", [("x", Value.vInt 42)]) :=
  ⟨rfl, rfl, rfl, rfl⟩

/-! ## Error-propagation policy (C7) -/

/-- Concrete embedded-driver oracle for the C7 counterexample: the plain
execution of the statement `BROKEN` fails, any other plain execution
returns one row. -/
def brokenDb : SqliteDb Unit where
  queryAll := fun s stmt =>
    (s, if stmt == "BROKEN" then .error "syntax error near BROKEN"
        else .ok [[("ok", Value.vInt 1)]])
  prepareAll := fun s _ _ => (s, .error "unused")

/-- Counterexample to C7 as stated: the multi-statement path of the
embedded adapter — which is neither of the two documented exception paths
(it is not the networked adapter, and no parameter binding is involved) —
hits a failing statement, yet `executeQuery` swallows the error and
returns the surviving rows as a success. -/
theorem sqlite_multi_swallows_error_cex :
    (brokenDb.queryAll () "BROKEN").2 = .error "syntax error near BROKEN"
    ∧ sqliteExecuteQuery brokenDb () "SELECT 1; BROKEN" [] =
        ((), .ok [[("ok", Value.vInt 1)]]) :=
  ⟨rfl, rfl⟩

/-- C7 amended: the single-statement paths of both adapters propagate
execution errors, but the partial-failure paths are three, not two: the
multi-statement paths of BOTH adapters always return success, continuing
past failing statements, and the embedded single-statement path with
parameters falls back to parameterless re-execution on a binding error. -/
theorem error_propagation_policy {σ : Type} (db : SqliteDb σ) (pg : PgClient σ)
    (s : σ) (sql : String) :
    (¬ (jsIncludesChar sql ';' = true ∧ 1 < (splitStatements sql).length) →
        sqliteExecuteQuery db s sql [] = db.queryAll s sql)
    ∧ (jsIncludesChar sql ';' = true → 1 < (splitStatements sql).length →
        ∃ s1 rows, sqliteExecuteQuery db s sql [] = (s1, .ok rows))
    ∧ (∀ (p : Params) (s1 : σ) (e : String),
        ¬ (jsIncludesChar sql ';' = true ∧ 1 < (splitStatements sql).length) →
        (sqliteTransformer sql p).2.isEmpty = false →
        db.prepareAll s sql (sqliteTransformer sql p).2 = (s1, .error e) →
        sqliteExecuteQuery db s sql p = db.queryAll s1 sql)
    ∧ (jsIncludes sql "CREATE TABLE IF NOT EXISTS _migrations" = false →
        1 < (pgStatements sql).length →
        ∃ s1 rows, pgExecuteQuery pg s sql [] = (s1, .ok rows))
    ∧ (jsIncludes sql "CREATE TABLE IF NOT EXISTS _migrations" = false →
        ¬ 1 < (pgStatements sql).length →
        pgExecuteQuery pg s sql [] = pg.run s sql) := by
  refine ⟨?_, ?_, ?_, ?_, ?_⟩
  · intro hno
    unfold sqliteExecuteQuery
    have hcond : (jsIncludesChar sql ';'
        && decide ((splitStatements sql).length > 1)) = false := by
      cases hsc : jsIncludesChar sql ';' with
      | false => simp
      | true =>
          rw [Bool.true_and, decide_eq_false_iff_not]
          intro hlen
          exact hno ⟨hsc, hlen⟩
    rw [hcond]
    simp [sqliteExecStmt, sqliteTransformer]
  · intro hsemi hlen
    unfold sqliteExecuteQuery
    have hcond : (jsIncludesChar sql ';'
        && decide ((splitStatements sql).length > 1)) = true := by
      simp [hsemi, hlen]
    rw [hcond]
    cases hloop : sqliteMultiLoop db (sqliteTransformer sql []).2 s
        (splitStatements sql) [] with
    | mk s1 rows => exact ⟨s1, rows, by simp [hloop]⟩
  · intro p s1 e hno hne hprep
    unfold sqliteExecuteQuery
    have hcond : (jsIncludesChar sql ';'
        && decide ((splitStatements sql).length > 1)) = false := by
      cases hsc : jsIncludesChar sql ';' with
      | false => simp
      | true =>
          rw [Bool.true_and, decide_eq_false_iff_not]
          intro hlen
          exact hno ⟨hsc, hlen⟩
    rw [hcond]
    simp only [Bool.false_eq_true, if_false, sqliteExecStmt, hne, hprep]
  · intro hmig hlen
    unfold pgExecuteQuery
    rw [hmig]
    simp only [Bool.false_eq_true, if_false]
    have ht : postgresTransformer sql [] = (sql, []) := rfl
    rw [ht]
    rw [if_pos hlen]
    cases hloop : pgMultiLoop pg s (pgStatements sql) [] with
    | mk s1 rows => exact ⟨s1, rows, by simp [hloop]⟩
  · intro hmig hlen
    unfold pgExecuteQuery
    rw [hmig]
    simp only [Bool.false_eq_true, if_false]
    have ht : postgresTransformer sql [] = (sql, []) := rfl
    rw [ht]
    rw [if_neg hlen]
    rfl

/-- Witness for the amended C7 on the single-statement no-parameter path:
the raw error of the driver is returned unchanged. -/
theorem error_propagation_policy_witness :
    sqliteExecuteQuery brokenDb () "BROKEN" [] = brokenDb.queryAll () "BROKEN" :=
  (error_propagation_policy brokenDb selectXPg () "BROKEN").1 (by decide)

/-! ## Query execution pipeline (`src/core/db.js`) -/

/-- The result object `executeNamedQuery` returns: success flag,
HTTP-style status, error message, data rows. -/
structure QueryOutcome where
  success : Bool
  status : Option Nat
  error : Option String
  data : Option (List Row)
deriving DecidableEq

/-- `loadSqlFromDisk` from `src/core/db.js`: `readFileAt` abstracts
`readFile(join(globalSqlPath, name + ".sql"))` for the configured SQL
path; a read failure is logged and replaced by the domain message
`Query '<name>' not found`. -/
def loadSqlFromDisk (readFileAt : String → Except String String)
    (name : String) : Except String String :=
  match readFileAt name with
  | .ok txt => .ok txt
  | .error _ => .error ("Query '" ++ name ++ "' not found")

/-- `executeNamedQuery` from `src/core/db.js`.  `cache` is the module-level
`queryCache`, `dbExec` the adapter's `executeQuery`; the second component
of the result lists the backend calls made.  A resolution failure yields a
404-shaped result before any backend call; a backend error yields a
500-shaped result carrying the backend message. -/
def executeNamedQuery (disableCaching : Bool)
    (readFileAt : String → Except String String)
    (cache : List (String × String))
    (dbExec : String → Params → Except String (List Row))
    (name : String) (params : Params) :
    QueryOutcome × List (String × Params) :=
  match
    (if disableCaching then
      match loadSqlFromDisk readFileAt name with
      | .ok sql => .ok sql
      | .error msg =>
          .error { success := false, status := some 404,
                   error := some msg, data := none }
    else
      match objGet cache name with
      | some sql => .ok sql
      | none =>
          .error { success := false, status := some 404,
                   error := some ("Query '" ++ name ++ "' not found"),
                   data := none }
      : Except QueryOutcome String)
  with
  | .error out => (out, [])
  | .ok sql =>
      match dbExec sql params with
      | .ok rows =>
          ({ success := true, status := none, error := none,
             data := some rows }, [(sql, params)])
      | .error msg =>
          ({ success := false, status := some 500, error := some msg,
             data := none }, [(sql, params)])

/-- `executeNamedQuery` of the base adapter (`src/adapters/base.js`).  The
`catch` wraps the whole pipeline: any error whose message contains
`Could not find SQL file` is replaced by `Query not found: <name>`.  The
destructuring of the transformer result reads a `transformedParams` field
the transformers do not set, so it is `undefined` and `executeQuery`
defaults it to the empty parameter object. -/
def baseExecuteNamedQuery (fileResolver : String → Except String String)
    (transformer : String → Params → String × Params)
    (dbExec : String → Params → Except String (List Row))
    (name : String) (params : Params) :
    Except String (List Row) × List (String × Params) :=
  let inner : Except String (List Row) × List (String × Params) :=
    match fileResolver name with
    | .error e => (.error e, [])
    | .ok sqlContent =>
        let sql := (transformer sqlContent params).1
        (dbExec sql [], [(sql, [])])
  match inner with
  | (.error e, calls) =>
      if jsIncludes e "Could not find SQL file" then
        (.error ("Query not found: " ++ name), calls)
      else (.error e, calls)
  | (.ok rows, calls) => (.ok rows, calls)

theorem listContainsSeq_prefix (pat rest : List Char) :
    listContainsSeq pat (pat ++ rest) = true := by
  cases pat with
  | nil => cases rest <;> simp [listContainsSeq]
  | cons c cs =>
      rw [List.cons_append, listContainsSeq]
      have : List.isPrefixOf (c :: cs) (c :: (cs ++ rest)) = true := by
        rw [List.isPrefixOf_iff_prefix]
        exact List.prefix_append _ _
      simp [this]

theorem jsIncludes_append_right (pat rest : String) :
    jsIncludes (pat ++ rest) pat = true := by
  unfold jsIncludes
  have : (pat ++ rest).data = pat.data ++ rest.data := String.data_append pat rest
  rw [this]
  exact listContainsSeq_prefix _ _

/-- C3: a query name with no matching SQL source fails with the
domain-level not-found error and the backend is never called: a cache miss
in cached mode and a disk failure in live mode both yield the 404 outcome
whose message is the fixed domain text (independent of the raw file
error), with an empty backend-call list; and the base adapter pipeline
maps its resolver failure to `Query not found` without calling
`executeQuery`. -/
theorem named_query_not_found (readFileAt : String → Except String String)
    (cache : List (String × String))
    (dbExec : String → Params → Except String (List Row))
    (transformer : String → Params → String × Params)
    (fileResolver : String → Except String String)
    (name : String) (params : Params) (e : String)
    (hmiss : objGet cache name = none)
    (hdisk : readFileAt name = .error e)
    (hres : fileResolver name = .error ("Could not find SQL file: " ++ name)) :
    executeNamedQuery false readFileAt cache dbExec name params =
      ({ success := false, status := some 404,
         error := some ("Query '" ++ name ++ "' not found"), data := none }, [])
    ∧ executeNamedQuery true readFileAt cache dbExec name params =
      ({ success := false, status := some 404,
         error := some ("Query '" ++ name ++ "' not found"), data := none }, [])
    ∧ baseExecuteNamedQuery fileResolver transformer dbExec name params =
      (.error ("Query not found: " ++ name), []) := by
  refine ⟨?_, ?_, ?_⟩
  · unfold executeNamedQuery
    rw [if_neg (by simp)]
    rw [hmiss]
  · unfold executeNamedQuery
    rw [if_pos rfl]
    unfold loadSqlFromDisk
    rw [hdisk]
  · unfold baseExecuteNamedQuery
    rw [hres]
    dsimp only
    have hj : jsIncludes ("Could not find SQL file: " ++ name)
        "Could not find SQL file" = true :=
      jsIncludes_append_right "Could not find SQL file" (": " ++ name)
    rw [if_pos hj]

/-- Witness for C3: a one-entry cache missing the requested name, a disk
that reports a raw ENOENT error, and the default file resolver message. -/
theorem named_query_not_found_witness :
    executeNamedQuery false (fun _ => .error "ENOENT: no such file or directory")
      [("get_users", "SELECT 1")] (fun _ _ => .ok []) "missing" [] =
      ({ success := false, status := some 404,
         error := some ("Query '" ++ "missing" ++ "' not found"), data := none }, [])
    ∧ executeNamedQuery true (fun _ => .error "ENOENT: no such file or directory")
      [("get_users", "SELECT 1")] (fun _ _ => .ok []) "missing" [] =
      ({ success := false, status := some 404,
         error := some ("Query '" ++ "missing" ++ "' not found"), data := none }, [])
    ∧ baseExecuteNamedQuery (fun n => .error ("Could not find SQL file: " ++ n))
      defaultSqlTransformer (fun _ _ => .ok []) "missing" [] =
      (.error ("Query not found: " ++ "missing"), []) :=
  named_query_not_found (fun _ => .error "ENOENT: no such file or directory")
    [("get_users", "SELECT 1")] (fun _ _ => .ok []) defaultSqlTransformer
    (fun n => .error ("Could not find SQL file: " ++ n)) "missing" []
    "ENOENT: no such file or directory" rfl rfl rfl

/-! ## Resolver modes and migration files (C9) -/

/-- One entry of the `fileInfo` array built by `loadSqlFiles`. -/
structure SqlFileInfo where
  name : String
  sql : String
  isMigration : Bool
deriving DecidableEq

/-- `loadSqlFiles` from `src/core/db.js`, over the directory listing paired
with file contents: keep `.sql` files, name each by stripping the suffix,
mark names starting with `_` as migrations, and put only the non-migration
queries into the cache.  The pair returned is the `fileInfo` list and the
`queryCache` contents. -/
def loadSqlFiles (dir : List (String × String)) :
    List SqlFileInfo × List (String × String) :=
  let sqlFiles := dir.filter (fun p => jsEndsWith p.1 ".sql")
  let fileInfo := sqlFiles.map (fun p =>
    { name := stripSqlSuffix p.1, sql := p.2,
      isMigration := jsStartsWith (stripSqlSuffix p.1) "_" : SqlFileInfo })
  (fileInfo,
    (fileInfo.filter (fun i => !i.isMigration)).foldl
      (fun cache i => objSet cache i.name i.sql) [])

theorem mem_objSet {α : Type} {m : List (String × α)} {k : String} {v : α}
    {p : String × α} (hp : p ∈ objSet m k v) : p ∈ m ∨ p.1 = k := by
  unfold objSet at hp
  by_cases h : m.any (fun q => q.1 == k)
  · rw [if_pos h] at hp
    rw [List.mem_map] at hp
    obtain ⟨q, hq, hpq⟩ := hp
    by_cases hk : q.1 == k
    · right
      rw [← hpq]
      simp [hk]
    · left
      rw [← hpq]
      simp only [hk, Bool.false_eq_true, if_false]
      exact hq
  · rw [if_neg h] at hp
    rw [List.mem_append] at hp
    rcases hp with h1 | h1
    · left; exact h1
    · right
      rw [List.mem_singleton] at h1
      rw [h1]

theorem objGet_eq_none {α : Type} {m : List (String × α)} {k : String}
    (h : ∀ p ∈ m, p.1 ≠ k) : objGet m k = none := by
  unfold objGet
  rw [Option.map_eq_none']
  rw [List.find?_eq_none]
  intro p hp
  simpa using h p hp

theorem cache_fold_keys (l : List SqlFileInfo) :
    ∀ (cache : List (String × String)),
      (∀ p ∈ cache, jsStartsWith p.1 "_" = false) →
      (∀ i ∈ l, jsStartsWith i.name "_" = false) →
      ∀ p ∈ l.foldl (fun c i => objSet c i.name i.sql) cache,
        jsStartsWith p.1 "_" = false := by
  induction l with
  | nil => intro cache hc _ p hp; exact hc p hp
  | cons i rest ih =>
      intro cache hc hl p hp
      refine ih (objSet cache i.name i.sql) ?_
        (fun j hj => hl j (List.mem_cons_of_mem _ hj)) p hp
      intro q hq
      rcases mem_objSet hq with hq1 | hq1
      · exact hc q hq1
      · rw [hq1]
        exact hl i (List.mem_cons_self _ _)

theorem loadSqlFiles_cache_no_migration (dir : List (String × String))
    (name : String) (hname : jsStartsWith name "_" = true) :
    objGet (loadSqlFiles dir).2 name = none := by
  apply objGet_eq_none
  intro p hp hcon
  have hkey : jsStartsWith p.1 "_" = false := by
    refine cache_fold_keys _ [] (by intro q hq; cases hq) ?_ p hp
    intro i hi
    rw [List.mem_filter] at hi
    obtain ⟨hmem, hnotmig⟩ := hi
    rw [List.mem_map] at hmem
    obtain ⟨q, -, hq⟩ := hmem
    rw [← hq] at hnotmig ⊢
    simpa using hnotmig
  rw [hcon, hname] at hkey
  cases hkey

/-- C9: resolution of migration names through `executeNamedQuery` is
asymmetric between the resolver modes: with caching enabled the
underscore-prefixed files are never cached, so a migration name 404s
without reaching the backend; with caching disabled the same name is read
from disk like any other `.sql` file and its SQL is executed against the
backend. -/
theorem migration_name_resolution_asymmetry
    (dir : List (String × String)) (readFileAt : String → Except String String)
    (dbExec : String → Params → Except String (List Row))
    (name sql : String) (params : Params) (rows : List Row)
    (hname : jsStartsWith name "_" = true)
    (hdisk : readFileAt name = .ok sql)
    (hexec : dbExec sql params = .ok rows) :
    executeNamedQuery false readFileAt (loadSqlFiles dir).2 dbExec name params =
      ({ success := false, status := some 404,
         error := some ("Query '" ++ name ++ "' not found"), data := none }, [])
    ∧ executeNamedQuery true readFileAt (loadSqlFiles dir).2 dbExec name params =
      ({ success := true, status := none, error := none, data := some rows },
        [(sql, params)]) := by
  constructor
  · unfold executeNamedQuery
    rw [if_neg (by simp)]
    rw [loadSqlFiles_cache_no_migration dir name hname]
  · unfold executeNamedQuery
    rw [if_pos rfl]
    unfold loadSqlFromDisk
    rw [hdisk]
    dsimp only
    rw [hexec]

/-- Witness for C9: a directory with one migration and one query file; the
migration name 404s in cached mode and executes in live mode. -/
theorem migration_name_resolution_asymmetry_witness :
    executeNamedQuery false (fun _ => .ok "CREATE TABLE t(id INT)")
      (loadSqlFiles [("_0001_init.sql", "CREATE TABLE t(id INT)"),
        ("get_users.sql", "SELECT 1")]).2
      (fun _ _ => .ok []) "_0001_init" [] =
      ({ success := false, status := some 404,
         error := some ("Query '" ++ "_0001_init" ++ "' not found"),
         data := none }, [])
    ∧ executeNamedQuery true (fun _ => .ok "CREATE TABLE t(id INT)")
      (loadSqlFiles [("_0001_init.sql", "CREATE TABLE t(id INT)"),
        ("get_users.sql", "SELECT 1")]).2
      (fun _ _ => .ok []) "_0001_init" [] =
      ({ success := true, status := none, error := none, data := some [] },
        [("CREATE TABLE t(id INT)", [])]) :=
  migration_name_resolution_asymmetry
    [("_0001_init.sql", "CREATE TABLE t(id INT)"), ("get_users.sql", "SELECT 1")]
    (fun _ => .ok "CREATE TABLE t(id INT)") (fun _ _ => .ok [])
    "_0001_init" "CREATE TABLE t(id INT)" [] [] rfl rfl rfl

end Derby
